import Mathlib

/-!
Verification of the burst-aware link intake and confirmation pipeline of the
Discord link-manager bot (sources: `main.py`, `utils.py`, `storage.py`).

The Python code is shallowly embedded: each dict becomes an association
list, each float timestamp becomes a rational number, ambient calls to
`time.time()` become an explicit `now` parameter, and each stateful method
becomes a pure function from state to state.  Where a method's behaviour
depends on the interacting user or on a per-item failure, that input is an
explicit argument.
-/

/-- Timestamps (`time.time()` floats in the source) are modelled as rationals. -/
abbrev Time := ℚ

/- ===========================================================================
   EventCleanup — the per-channel sliding-window burst detector (utils.py:52-86).
   `self.events` is a dict mapping channel id to a list of timestamps; it is
   modelled as an association list built only through the operations below,
   so each channel id occurs at most once.
   =========================================================================== -/

/-- `ChannelEvents` models `EventCleanup.events` (utils.py:54). -/
abbrev ChannelEvents := List (Nat × List Time)

/-- Dict lookup: `self.events[channel_id]`, with `none` for a channel id that
was never recorded (`channel_id not in self.events`). -/
def lookupEvents : ChannelEvents → Nat → Option (List Time)
  | [], _ => none
  | (k, v) :: rest, c => if k = c then some v else lookupEvents rest c

/-- `EventCleanup.add_event` (utils.py:57-60): create the channel's list if
missing, then append the timestamp. -/
def add_event : ChannelEvents → Nat → Time → ChannelEvents
  | [], c, ts => [(c, [ts])]
  | (k, v) :: rest, c, ts =>
      if k = c then (k, v ++ [ts]) :: rest
      else (k, v) :: add_event rest c ts

/-- `EventCleanup.cleanup_old_events` (utils.py:62-73): for a known channel,
keep the timestamps with `now - ts <= window_seconds` and drop the channel
entry entirely when none remain; unknown channels are left untouched.
The source reads `now` from `time.time()`; here it is a parameter. -/
def cleanup_old_events : ChannelEvents → Nat → ℚ → Time → ChannelEvents
  | [], _, _, _ => []
  | (k, v) :: rest, c, window, now =>
      if k = c then
        let kept := v.filter (fun ts => now - ts ≤ window)
        if kept.isEmpty then rest else (k, kept) :: rest
      else (k, v) :: cleanup_old_events rest c window now

/-- `EventCleanup.get_event_count` (utils.py:75-81): `0` for an unknown
channel, otherwise the number of timestamps with `now - ts <= window_seconds`. -/
def get_event_count (evs : ChannelEvents) (c : Nat) (window : ℚ) (now : Time) : Nat :=
  match lookupEvents evs c with
  | none => 0
  | some v => v.countP (fun ts => now - ts ≤ window)

/-- `BATCH_WINDOW_SECONDS = 3` (main.py:67). -/
def BATCH_WINDOW_SECONDS : ℚ := 3

/-- `BATCH_THRESHOLD_DEFAULT = 5` (main.py:68). -/
def BATCH_THRESHOLD_DEFAULT : Nat := 5

/-- The module-level name `guild_config` read at main.py:1186 and
main.py:1446 (and main.py:1848-1859) is bound nowhere in the repository:
main.py neither assigns it nor imports it (its imports, main.py:9-28, are
asyncio, datetime, io, os, re, time, uuid, urllib.parse, csv, typing,
aiohttp, discord, dotenv, storage, utils and google).  Every evaluation of
those lines therefore raises this NameError. -/
def guild_config_error : String := "NameError: name guild_config is not defined"

/-- One iteration of the per-link loop in `LinkManagerCog.on_message`
(main.py:1439-1447) as the program actually runs: the body records the
current link's event and prunes the channel's window (main.py:1442-1443) and
computes the live count into a local (main.py:1444), but the per-guild
threshold read at main.py:1446 evaluates the unbound name `guild_config` and
raises — the strict greater-than comparison at main.py:1447, and everything
after it (batch queuing, capacity acquire, prompt creation), never runs, and
the exception propagates out of `on_message`.  The result is the updated
burst-window state paired with the exception. -/
def on_message_link_iter (evs : ChannelEvents) (chId : Nat) (now : Time)
    (window : ℚ) : ChannelEvents × Option String :=
  (cleanup_old_events (add_event evs chId now) chId window now,
   some guild_config_error)

/- Helper lemmas about the burst detector. -/

theorem lookupEvents_add_event (evs : ChannelEvents) (c : Nat) (ts : Time) :
    lookupEvents (add_event evs c ts) c
      = some (((lookupEvents evs c).getD []) ++ [ts]) := by
  induction evs with
  | nil => simp [add_event, lookupEvents]
  | cons hd tl ih =>
      obtain ⟨k, v⟩ := hd
      by_cases hk : k = c
      · subst hk
        simp [add_event, lookupEvents]
      · simp [add_event, lookupEvents, hk, ih]

theorem countP_snoc_false {α : Type} (p : α → Bool) (l : List α) (a : α)
    (h : p a = false) : (l ++ [a]).countP p = l.countP p := by
  simp [List.countP_append, List.countP_cons, h]

theorem cleanup_of_lookup_none (evs : ChannelEvents) (c : Nat) (w : ℚ) (now : Time)
    (h : lookupEvents evs c = none) :
    cleanup_old_events evs c w now = evs := by
  induction evs with
  | nil => rfl
  | cons hd tl ih =>
      obtain ⟨k, v⟩ := hd
      by_cases hk : k = c
      · subst hk
        simp [lookupEvents] at h
      · simp [lookupEvents, hk] at h
        simp [cleanup_old_events, hk, ih h]

/-- C4: the burst detector's count equals the number of recorded events in the
channel with timestamp at least `now - w`; an event recorded at `t0` is not
counted at any query time strictly after `t0 + w`; and counting or pruning a
channel that never recorded an event returns `0` / leaves the state unchanged. -/
theorem event_count_spec (evs : ChannelEvents) (c : Nat) (w : ℚ) (now : Time) :
    get_event_count evs c w now
        = ((lookupEvents evs c).getD []).countP (fun ts => now - w ≤ ts)
    ∧ (∀ t0 : Time, t0 + w < now →
        get_event_count (add_event evs c t0) c w now = get_event_count evs c w now)
    ∧ (lookupEvents evs c = none →
        get_event_count evs c w now = 0 ∧ cleanup_old_events evs c w now = evs) := by
  have hpred : ∀ ts : Time, (decide (now - ts ≤ w)) = (decide (now - w ≤ ts)) := by
    intro ts
    by_cases h : now - ts ≤ w
    · have h' : now - w ≤ ts := by linarith
      simp [h, h']
    · have h' : ¬ now - w ≤ ts := by intro hc; exact h (by linarith)
      simp [h, h']
  have hcount : ∀ v : List Time,
      v.countP (fun ts => now - ts ≤ w) = v.countP (fun ts => now - w ≤ ts) := by
    intro v
    exact List.countP_congr (fun ts _ => by rw [hpred])
  refine ⟨?_, ?_, ?_⟩
  · unfold get_event_count
    cases h : lookupEvents evs c with
    | none => simp
    | some v =>
        simp only [h, Option.getD_some]
        exact hcount v
  · intro t0 ht0
    have hfalse : (fun ts => decide (now - ts ≤ w)) t0 = false := by
      simp only [decide_eq_false_iff_not]
      intro hc
      linarith
    unfold get_event_count
    rw [lookupEvents_add_event]
    cases h : lookupEvents evs c with
    | none =>
        simp only [h, Option.getD_none, Option.getD_some, List.nil_append]
        have := countP_snoc_false (fun ts => decide (now - ts ≤ w)) [] t0 hfalse
        simpa using this
    | some v =>
        simp only [h, Option.getD_some]
        exact countP_snoc_false _ v t0 hfalse
  · intro h
    refine ⟨?_, cleanup_of_lookup_none evs c w now h⟩
    unfold get_event_count
    simp [h]

/-- Witness for `event_count_spec` at concrete inputs. -/
theorem event_count_spec_witness :
    get_event_count (add_event [] 0 0) 0 1 2 = get_event_count ([] : ChannelEvents) 0 1 2
    ∧ get_event_count ([] : ChannelEvents) 0 1 2 = 0
    ∧ cleanup_old_events ([] : ChannelEvents) 0 1 2 = [] := by
  have h := event_count_spec ([] : ChannelEvents) 0 1 2
  refine ⟨h.2.1 0 (by norm_num), (h.2.2 rfl).1, (h.2.2 rfl).2⟩

/-- C3: the claimed routing never happens.  Every iteration of the per-link
loop aborts with NameError on the unbound `guild_config` after recording and
pruning the current link's event but before the threshold comparison at
main.py:1447, for every window state: no link is ever handled by the
per-link confirmation path or routed to the batch path, whatever the count
and the threshold.  At the concrete input of the last conjunct the recorded
event is live in the updated window — the count the program computed just
before dying is 1 — yet it is never compared against any threshold. -/
theorem burst_threshold_code_bug (evs : ChannelEvents) (chId : Nat)
    (now : Time) (window : ℚ) :
    (on_message_link_iter evs chId now window).2 = some guild_config_error
    ∧ (on_message_link_iter evs chId now window).1
        = cleanup_old_events (add_event evs chId now) chId window now
    ∧ get_event_count (on_message_link_iter ([] : ChannelEvents) 0 0 3).1 0 3 0
        = 1 := by
  refine ⟨rfl, rfl, ?_⟩
  norm_num [on_message_link_iter, get_event_count, cleanup_old_events,
    add_event, lookupEvents, List.countP, List.countP.go]

/- ===========================================================================
   Guild Capacity Guard — the per-guild pending counter and the durable
   pending store, as manipulated by `on_message` (main.py:1476-1489) and by
   the finalization paths (`save_now` main.py:760-761, `cancel_btn`
   main.py:805-807, `_delete_if_no_response` main.py:1205-1206).
   The state is restricted to one guild id: operations on distinct guilds
   touch disjoint dict entries.
   =========================================================================== -/

/-- The `pending_entry` dict built at main.py:1482-1488 (and identically at
1417-1423 and 889-895); `bot_msg_id` is attached later by
`update_pending_with_bot_msg_id` and is absent on creation. -/
structure PendingEntry where
  user_id : Nat
  link : String
  channel_id : Nat
  original_message_id : Nat
  timestamp : String
  bot_msg_id : Option Nat := none
deriving DecidableEq

/-- State of one guild's capacity accounting: `count` models
`self.guild_pending_counts.get(gid)` (`none` when the guild id is absent from
the dict), `durable` the guild's records in the durable pending store. -/
structure GuildCapState where
  count : Option Int
  durable : List PendingEntry
deriving DecidableEq

/-- `self.guild_pending_cap = 200` (main.py:1048). -/
def guild_pending_cap : Int := 200

/-- The acquire sequence of main.py:1476-1489: read the counter with default
0, increment, store the incremented value back, then compare against the cap;
on rejection (`count > self.guild_pending_cap`) alert and `continue` without
inserting a durable record, otherwise insert the record.  Returns whether the
acquisition was accepted. -/
def acquirePending (cap : Int) (e : PendingEntry) (s : GuildCapState) :
    Bool × GuildCapState :=
  let c := s.count.getD 0 + 1
  if cap < c then (false, { s with count := some c })
  else (true, { count := some c, durable := s.durable ++ [e] })

/-- The guarded decrement shared by every finalization path
(main.py:760-761, 805-807, 1205-1206): `if gid in self.guild_pending_counts
and self.guild_pending_counts[gid] > 0: self.guild_pending_counts[gid] -= 1`. -/
def releasePending (s : GuildCapState) : GuildCapState :=
  match s.count with
  | none => s
  | some c => if 0 < c then { s with count := some (c - 1) } else s

/-- One step of the capacity guard: an acquisition (with the record it would
insert) or a release. -/
inductive CapOp
  | acquire (e : PendingEntry)
  | release
deriving DecidableEq

/-- Run a sequence of capacity-guard operations. -/
def runCapOps (cap : Int) : List CapOp → GuildCapState → GuildCapState
  | [], s => s
  | CapOp.acquire e :: rest, s => runCapOps cap rest (acquirePending cap e s).2
  | CapOp.release :: rest, s => runCapOps cap rest (releasePending s)

/-- The guild has no counter entry before its first acquisition
(`self.guild_pending_counts = {}`, main.py:1049). -/
def initCapState : GuildCapState := { count := none, durable := [] }

/-- A placeholder concrete record for witnesses and counterexamples. -/
def sampleEntry : PendingEntry :=
  { user_id := 1, link := "https://example.com/notes", channel_id := 2,
    original_message_id := 3, timestamp := "t" }

theorem runCapOps_replicate_acquire (cap : Int) (e : PendingEntry) (n : Nat)
    (s : GuildCapState) (c : Int) (h : s.count.getD 0 = c) :
    (runCapOps cap (List.replicate n (CapOp.acquire e)) s).count.getD 0 = c + n := by
  induction n generalizing s c with
  | zero => simpa using h
  | succ m ih =>
      rw [List.replicate_succ, runCapOps]
      have hnext : ((acquirePending cap e s).2).count.getD 0 = c + 1 := by
        unfold acquirePending
        by_cases hc : cap < s.count.getD 0 + 1
        · simp only [hc, if_pos]
          simp [h]
        · simp only [hc, if_neg, not_false_iff]
          simp [h]
      rw [ih _ _ hnext]
      push_cast
      ring

theorem runCapOps_nonneg (cap : Int) (ops : List CapOp) (s : GuildCapState)
    (h : 0 ≤ s.count.getD 0) : 0 ≤ (runCapOps cap ops s).count.getD 0 := by
  induction ops generalizing s with
  | nil => exact h
  | cons op rest ih =>
      cases op with
      | acquire e =>
          rw [runCapOps]
          apply ih
          unfold acquirePending
          by_cases hc : cap < s.count.getD 0 + 1
          · simp only [hc, if_pos, Option.getD_some]
            linarith
          · simp only [hc, if_neg, not_false_iff, Option.getD_some]
            linarith
      | release =>
          rw [runCapOps]
          apply ih
          unfold releasePending
          cases hcnt : s.count with
          | none => simp [hcnt]
          | some c =>
              by_cases h0 : 0 < c
              · simp only [h0, if_pos]
                simp
                omega
              · simp only [h0, if_neg, not_false_iff]
                simpa [hcnt] using h

/-- C1 counterexample: starting from the initial state, 200 accepted
acquisitions bring the counter to the cap; the 201st acquisition is rejected,
yet it mutates the counter to 201, which exceeds the configured cap of 200 —
refuting both "`counter <= cap`" and "a rejected acquire leaves the counter
unchanged". -/
theorem guild_cap_claim_cex :
    (acquirePending guild_pending_cap sampleEntry
        (runCapOps guild_pending_cap
          (List.replicate 200 (CapOp.acquire sampleEntry)) initCapState)).1 = false
    ∧ (acquirePending guild_pending_cap sampleEntry
        (runCapOps guild_pending_cap
          (List.replicate 200 (CapOp.acquire sampleEntry)) initCapState)).2.count
        = some 201
    ∧ guild_pending_cap < 201 := by
  have h200 : (runCapOps guild_pending_cap
      (List.replicate 200 (CapOp.acquire sampleEntry)) initCapState).count.getD 0
      = 200 := by
    have := runCapOps_replicate_acquire guild_pending_cap sampleEntry 200
      initCapState 0 rfl
    simpa using this
  have key : ∀ s : GuildCapState, s.count.getD 0 = 200 →
      (acquirePending guild_pending_cap sampleEntry s).1 = false
      ∧ (acquirePending guild_pending_cap sampleEntry s).2.count = some 201 := by
    intro s hs
    have hlt : guild_pending_cap < s.count.getD 0 + 1 := by
      rw [hs]
      norm_num [guild_pending_cap]
    unfold acquirePending
    simp only [hlt, if_pos]
    refine ⟨trivial, ?_⟩
    rw [hs]
    norm_num
  exact ⟨(key _ h200).1, (key _ h200).2, by norm_num [guild_pending_cap]⟩

/-- C1 amended: the counter of the Guild Capacity Guard never goes negative
(every decrement is guarded by a positivity check), and a rejected acquisition
creates no durable pending record — but, contrary to the original claim, a
rejected acquisition still increments the counter by one, so the counter is
not bounded by the cap. -/
theorem guild_cap_amended (cap : Int) (ops : List CapOp) (e : PendingEntry)
    (s : GuildCapState) :
    0 ≤ (runCapOps cap ops initCapState).count.getD 0
    ∧ ((acquirePending cap e s).1 = false →
        (acquirePending cap e s).2.durable = s.durable
        ∧ (acquirePending cap e s).2.count = some (s.count.getD 0 + 1)) := by
  refine ⟨runCapOps_nonneg cap ops initCapState (by simp [initCapState]), ?_⟩
  intro hrej
  unfold acquirePending at hrej ⊢
  by_cases hc : cap < s.count.getD 0 + 1
  · simp [hc]
  · simp [hc] at hrej

/-- Witness for `guild_cap_amended`: with cap 0, the very first acquisition is
rejected; it leaves the durable store empty and sets the counter to 1. -/
theorem guild_cap_amended_witness :
    (acquirePending 0 sampleEntry initCapState).2.durable = initCapState.durable
    ∧ (acquirePending 0 sampleEntry initCapState).2.count
        = some (initCapState.count.getD 0 + 1)
    ∧ 0 ≤ (runCapOps 0 [CapOp.release] initCapState).count.getD 0 := by
  have h := guild_cap_amended 0 [CapOp.release] sampleEntry initCapState
  have hrej : (acquirePending 0 sampleEntry initCapState).1 = false := by
    simp [acquirePending, initCapState]
  exact ⟨(h.2 hrej).1, (h.2 hrej).2, h.1⟩

/- ===========================================================================
   Expiry vs. "Save now" — `LinkManagerCog._delete_if_no_response`
   (main.py:1184-1208) and `LinkActionView.save_now` (main.py:748-774).
   The state is restricted to the records those paths address: the in-memory
   `self.pending_links` map, the per-guild counter, the durable store
   (MongoDB backend, whose record ids are strings) and the author's
   `links_to_categorize` slot.
   =========================================================================== -/

/-- State shared by the expiry task and the save action. -/
structure CogState where
  pending_links : List (Nat × Option String)
  count : Option Int
  durable : List String
  links_to_categorize : Option String
deriving DecidableEq

/-- `bot_message.id in self.pending_links` (main.py:1192) /
`interaction.message.id in self.cog.pending_links` (main.py:757). -/
def memPending (m : List (Nat × Option String)) (botMsgId : Nat) : Bool :=
  m.any (fun p => p.1 == botMsgId)

/-- `del self.pending_links[bot_message.id]` (main.py:1198, 758). -/
def delPending (m : List (Nat × Option String)) (botMsgId : Nat) :
    List (Nat × Option String) :=
  m.filter (fun p => ! (p.1 == botMsgId))

/-- The guarded counter decrement shared by both paths (main.py:760-761,
1205-1206): decrement only when the guild's entry exists and is positive. -/
def guardedDec : Option Int → Option Int
  | none => none
  | some c => if 0 < c then some (c - 1) else some c

/-- `storage.delete_pending_link_by_id` (storage.py:270-273) over the MongoDB
backend (storage.py:69-71): a falsy id (None or empty string) is a no-op,
otherwise `delete_one` removes the record with that id. -/
def mongo_delete_pending_link_by_id (pid : Option String) (d : List String) :
    List String :=
  match pid with
  | none => d
  | some i => if i = "" then d else d.erase i

/-- `_delete_if_no_response` (main.py:1184-1208) as the program actually
runs: line 1185 computes the guild id into a local; line 1186 then reads the
unbound name `guild_config`, so the coroutine dies with NameError — before
the `AUTO_DELETE_ENABLED` check (main.py:1188), the sleep (main.py:1190) and
the whole check-then-act finalization block (main.py:1191-1206).  The expiry
tasks scheduled at main.py:1510, 1664 and 1691 therefore never delete a
prompt, never delete a durable record and never decrement a counter: the
shared state is returned untouched, paired with the exception. -/
def delete_if_no_response_run (_botMsgId : Nat) (_pid : Option String)
    (s : CogState) : CogState × Option String :=
  (s, some guild_config_error)

/-- `LinkActionView.save_now` (main.py:749-762): unless the view's `_done`
flag is already set, delete the durable record, drop the in-memory entry if
present, decrement the guild counter (guarded only by positivity, without
re-checking the map), and overwrite the author's to-categorize slot. -/
def saveNowStep (done : Bool) (botMsgId : Nat) (pid : Option String)
    (link : String) (s : CogState) : CogState :=
  if done then s
  else
    { durable := mongo_delete_pending_link_by_id pid s.durable
      pending_links :=
        if memPending s.pending_links botMsgId then
          delPending s.pending_links botMsgId
        else s.pending_links
      count := guardedDec s.count
      links_to_categorize := some link }

/-- A concrete state with one live prompt (bot message id 10, durable id "a")
and a second unrelated pending link keeping the guild counter at 2. -/
def raceState0 : CogState :=
  { pending_links := [(10, some "a")], count := some 2,
    durable := ["a", "b"], links_to_categorize := none }

/-- C2: the claimed race protocol is dead code.  For every cog state the
expiry coroutine aborts with NameError on the unbound `guild_config` and
changes nothing — it can never win the race, and it never performs the
check-then-act finalization the claim describes (that block, main.py:1191-
1206, is unreachable).  The save action is the only live finalization path:
at the concrete state `raceState0` (prompt live under bot message id 10,
durable id "a", counter 2), `save_now` removes the in-memory entry, deletes
the durable record and decrements the counter once. -/
theorem expiry_race_code_bug (botMsgId : Nat) (pid : Option String)
    (s : CogState) :
    delete_if_no_response_run botMsgId pid s = (s, some guild_config_error)
    ∧ (saveNowStep false 10 (some "a") "https://u.example"
        raceState0).pending_links = []
    ∧ (saveNowStep false 10 (some "a") "https://u.example"
        raceState0).durable = ["b"]
    ∧ (saveNowStep false 10 (some "a") "https://u.example"
        raceState0).count = some 1 := by
  refine ⟨rfl, ?_, ?_, ?_⟩ <;> rfl

/- ===========================================================================
   Idempotent Message Gate — `on_message`'s head guard (main.py:1339-1342)
   and `prune_processed` (main.py:1154-1156).  `processed_messages` is a
   Python set, modelled as a duplicate-free list of its contents.  Pruning
   slices `list(self.processed_messages)`, and Python specifies no iteration
   order for a set, so the enumeration used by the slice is an input here
   (an arbitrary permutation of the contents).  `runs` counts executions of
   the rest of the pipeline body.
   =========================================================================== -/

/-- Gate state: the `processed_messages` set and the number of times the
pipeline body has executed. -/
structure GateState where
  processed : List Nat
  runs : Nat
deriving DecidableEq

/-- `prune_processed` (main.py:1154-1156):
`set(list(self.processed_messages)[-max_size:])` — once the set exceeds
`max_size`, keep the last `max_size` elements of its enumeration.  Which
elements survive depends on the set's unspecified iteration order, so the
enumeration `order` is a parameter. -/
def prune_processed (maxSize : Nat) (order : List Nat) : List Nat :=
  if maxSize < order.length then order.drop (order.length - maxSize) else order

/-- The gate at the head of `on_message` (main.py:1339-1342): return when the
author is the bot or the message id was already processed; otherwise add the
id, prune the set to 50000 entries, and run the pipeline body.  `order` is
the enumeration of the set after the add: an arbitrary permutation of the
previous contents plus the new id. -/
def on_message_gate (isBotAuthor : Bool) (mid : Nat) (order : List Nat)
    (s : GateState) : GateState :=
  if isBotAuthor ∨ mid ∈ s.processed then s
  else { processed := prune_processed 50000 order, runs := s.runs + 1 }

theorem length_prune_processed (maxSize : Nat) (l : List Nat) :
    (prune_processed maxSize l).length = min l.length maxSize := by
  unfold prune_processed
  by_cases h : maxSize < l.length
  · simp only [h, if_pos, List.length_drop]
    omega
  · simp only [h, if_neg, not_false_iff]
    omega

/-- The set contents at the 50000-entry bound: the ids 1..50000. -/
def fullSet : List Nat := (List.range 50000).map Nat.succ

/-- An enumeration of the set after adding id 0 that lists 0 first — legal,
since Python specifies no set iteration order — so the trailing-50000 slice
drops 0 itself. -/
def evictingOrder : List Nat := 0 :: fullSet

/-- A gate state whose processed set holds exactly 50000 entries. -/
def atCapacityState : GateState := { processed := fullSet, runs := 0 }

theorem fullSet_length : fullSet.length = 50000 := by
  simp [fullSet]

theorem zero_not_mem_fullSet : (0 : Nat) ∉ fullSet := by
  simp [fullSet]

/-- C5 counterexample: with the set at its 50000-entry bound, delivering a
fresh id 0 under an enumeration that lists 0 first evicts 0 itself during
pruning, so delivering the very same id again is not a no-op — the pipeline
body runs a second time (`runs` goes 0 → 1 → 2), refuting the unconditional
"the second delivery is a no-op / at most one pipeline execution". -/
theorem gate_eviction_cex :
    atCapacityState = { processed := fullSet, runs := 0 }
    ∧ evictingOrder.Perm (fullSet ++ [0])
    ∧ (on_message_gate false 0 evictingOrder atCapacityState).processed = fullSet
    ∧ (on_message_gate false 0 evictingOrder atCapacityState).runs = 1
    ∧ (on_message_gate false 0 (fullSet ++ [0])
        (on_message_gate false 0 evictingOrder atCapacityState)).runs = 2 := by
  have h0 : (0 : Nat) ∉ fullSet := zero_not_mem_fullSet
  have hprune : prune_processed 50000 evictingOrder = fullSet := by
    have hlen : evictingOrder.length = 50001 := by
      unfold evictingOrder
      rw [List.length_cons, fullSet_length]
    unfold prune_processed
    rw [hlen, if_pos (by omega)]
    have h1 : (50001 - 50000 : Nat) = 1 := by norm_num
    rw [h1]
    show (0 :: fullSet).drop 1 = fullSet
    rw [List.drop_one, List.tail_cons]
  have hgate1 : on_message_gate false 0 evictingOrder atCapacityState
      = { processed := fullSet, runs := 1 } := by
    unfold on_message_gate
    simp [atCapacityState, h0, hprune]
  have hgate2 : on_message_gate false 0 (fullSet ++ [0])
      { processed := fullSet, runs := 1 }
      = { processed := prune_processed 50000 (fullSet ++ [0]), runs := 2 } := by
    unfold on_message_gate
    simp [h0]
  refine ⟨rfl, (List.perm_append_singleton 0 fullSet).symm, ?_, ?_, ?_⟩
  · rw [hgate1]
  · rw [hgate1]
  · rw [hgate1, hgate2]

/-- C5 amended: the id is checked against and added to the recency set before
any other processing; a delivery whose id is in the set changes nothing; an
unseen id runs the pipeline body exactly once; the set stays bounded at
50000 entries — and the second delivery of the same id is a no-op provided
the set held fewer than 50000 entries at the first delivery, so that the
pruning evicts nothing and the just-added id is retained, whatever the
enumeration order.  At exactly 50000 entries the evicted element is
unspecified and may be the just-added id (see the counterexample), so the
no-op guarantee holds only below capacity. -/
theorem message_gate_amended (mid : Nat) (s : GateState) (order order2 : List Nat)
    (horder : order.Perm (s.processed ++ [mid])) :
    (mid ∈ s.processed → on_message_gate false mid order s = s)
    ∧ (mid ∉ s.processed → (on_message_gate false mid order s).runs = s.runs + 1)
    ∧ (s.processed.length ≤ 50000 →
        (on_message_gate false mid order s).processed.length ≤ 50000)
    ∧ (s.processed.length < 50000 →
        mid ∈ (on_message_gate false mid order s).processed
        ∧ on_message_gate false mid order2 (on_message_gate false mid order s)
            = on_message_gate false mid order s) := by
  have gate_noop : ∀ o : List Nat, ∀ t : GateState, mid ∈ t.processed →
      on_message_gate false mid o t = t := by
    intro o t ht
    unfold on_message_gate
    rw [if_pos (Or.inr ht)]
  refine ⟨gate_noop order s, ?_, ?_, ?_⟩
  · intro hm
    unfold on_message_gate
    simp [hm]
  · intro hlen
    by_cases hm : mid ∈ s.processed
    · rw [gate_noop order s hm]
      exact hlen
    · have hrun : on_message_gate false mid order s
          = { processed := prune_processed 50000 order, runs := s.runs + 1 } := by
        unfold on_message_gate
        simp [hm]
      rw [hrun]
      simp only [length_prune_processed]
      omega
  · intro hlt
    by_cases hm : mid ∈ s.processed
    · rw [gate_noop order s hm]
      exact ⟨hm, gate_noop order2 s hm⟩
    · have hrun : on_message_gate false mid order s
          = { processed := prune_processed 50000 order, runs := s.runs + 1 } := by
        unfold on_message_gate
        simp [hm]
      have hordlen : order.length = s.processed.length + 1 := by
        rw [horder.length_eq]
        simp
      have hno_evict : prune_processed 50000 order = order := by
        unfold prune_processed
        rw [if_neg (by omega)]
      have hmem : mid ∈ prune_processed 50000 order := by
        rw [hno_evict]
        exact (horder.mem_iff).mpr
          (List.mem_append_right _ (List.mem_singleton_self mid))
      have hmem2 : mid ∈ (on_message_gate false mid order s).processed := by
        rw [hrun]
        exact hmem
      exact ⟨hmem2, gate_noop order2 _ hmem2⟩

/-- Witness for `message_gate_amended` at two concrete states: an unseen id
below capacity (pipeline runs once, id retained, second delivery a no-op)
and an already-processed id (delivery is a no-op). -/
theorem message_gate_amended_witness :
    (on_message_gate false 5 [5] { processed := [], runs := 0 }).runs = 0 + 1
    ∧ on_message_gate false 5 [5, 5] { processed := [5], runs := 3 }
        = { processed := [5], runs := 3 }
    ∧ (on_message_gate false 5 [5] { processed := [], runs := 0 }).processed.length
        ≤ 50000
    ∧ 5 ∈ (on_message_gate false 5 [5] { processed := [], runs := 0 }).processed
    ∧ on_message_gate false 5 [5]
        (on_message_gate false 5 [5] { processed := [], runs := 0 })
        = on_message_gate false 5 [5] { processed := [], runs := 0 } := by
  have h1 := message_gate_amended 5 { processed := [], runs := 0 } [5] [5]
    (List.Perm.refl _)
  have h2 := message_gate_amended 5 { processed := [5], runs := 3 } [5, 5] [5, 5]
    (List.Perm.refl _)
  exact ⟨h1.2.1 (by simp), h2.1 (by simp), h1.2.2.1 (by simp),
    (h1.2.2.2 (by simp)).1, (h1.2.2.2 (by simp)).2⟩

/- ===========================================================================
   Authorization checks of the confirmation views.  Each view's
   `interaction_check` sends an ephemeral notice and returns False when the
   interacting user is not the stored author; the platform dispatcher runs a
   button/select callback only when `interaction_check` returns True.
   =========================================================================== -/

/-- `DisclaimerView.interaction_check` (main.py:703-707). -/
def disclaimer_check (author_id user_id : Nat) : Bool := user_id == author_id

/-- `LinkActionView.interaction_check` (main.py:742-746). -/
def link_action_check (author_id user_id : Nat) : Bool := user_id == author_id

/-- The author clause of `MultiLinkSelectView.interaction_check`
(main.py:848-851). -/
def multi_select_check (author_id user_id : Nat) : Bool := user_id == author_id

/-- `ConfirmMultiLinkView` (main.py:872-929) defines no `interaction_check`
override, so the platform default (`discord.ui.View.interaction_check`, which
returns True for every interaction) applies: the batch-save confirmation
admits every user. -/
def confirm_multi_check (_author_id _user_id : Nat) : Bool := true

/-- The platform dispatcher: a component callback (a state transformer) runs
only when the view's check admits the interaction; a rejected interaction
leaves the state unchanged (the flag returned reports whether the callback
ran). -/
def handleInteraction {σ : Type} (check : Nat → Nat → Bool) (callback : σ → σ)
    (author_id user_id : Nat) (s : σ) : σ × Bool :=
  if check author_id user_id then (callback s, true) else (s, false)

/-- C6 (code-level evaluation): a non-author interaction is rejected with no
state change at the per-link prompt, the disclosure prompt and the
multi-select prompt — but the batch-save confirmation (`ConfirmMultiLinkView`)
lacks an author check, so a non-author interaction runs its callback and can
change state, contradicting the claim at that step. -/
theorem author_check_spec :
    handleInteraction disclaimer_check (fun n : Nat => n + 1) 1 2 0 = (0, false)
    ∧ handleInteraction link_action_check (fun n : Nat => n + 1) 1 2 0 = (0, false)
    ∧ handleInteraction multi_select_check (fun n : Nat => n + 1) 1 2 0 = (0, false)
    ∧ handleInteraction confirm_multi_check (fun n : Nat => n + 1) 1 2 0 = (1, true)
    ∧ disclaimer_check 1 2 = false
    ∧ link_action_check 1 2 = false
    ∧ multi_select_check 1 2 = false
    ∧ confirm_multi_check 1 2 = true :=
  ⟨rfl, rfl, rfl, rfl, rfl, rfl, rfl, rfl⟩

/- ===========================================================================
   MultiLinkSelectView.__init__ (main.py:822-846): the select menu built over
   the candidate links.
   =========================================================================== -/

/-- The configuration of the `discord.ui.Select` created at main.py:839-845. -/
structure SelectConfig where
  num_options : Nat
  min_values : Nat
  max_values : Nat
deriving DecidableEq

/-- main.py:830-845: one option per candidate up to `min(len(links), 25)`,
plus a placeholder option when there are none; `min_values=1`;
`max_values=min(len(options), 25)`. -/
def mkMultiLinkSelect (numLinks : Nat) : SelectConfig :=
  let maxOptions := min numLinks 25
  let numOptions := if maxOptions = 0 then 1 else maxOptions
  { num_options := numOptions
    min_values := 1
    max_values := min numOptions 25 }

/-- A selection of `k` items is permitted by the menu iff
`min_values ≤ k ≤ max_values`. -/
def selectionAllowed (cfg : SelectConfig) (k : Nat) : Bool :=
  cfg.min_values ≤ k && k ≤ cfg.max_values

/-- C7 counterexample: for a prompt over 3 candidate links, selecting zero
items is not permitted (`min_values = 1`), refuting "an empty selection is an
allowed choice". -/
theorem select_zero_cex :
    selectionAllowed (mkMultiLinkSelect 3) 0 = false := by decide

/-- C7 amended: the multi-select prompt lists at most 25 candidates (exactly
`min n 25` of them for `n ≥ 1`), and the author may choose any number of them
between 1 and `min n 25` — but not zero. -/
theorem multi_select_spec (n k : Nat) (h : 1 ≤ n) :
    (mkMultiLinkSelect n).num_options = min n 25
    ∧ (mkMultiLinkSelect n).num_options ≤ 25
    ∧ (selectionAllowed (mkMultiLinkSelect n) k = true ↔ 1 ≤ k ∧ k ≤ min n 25) := by
  have h0 : ¬ (min n 25 = 0) := by omega
  unfold mkMultiLinkSelect selectionAllowed
  simp only [h0, if_neg, not_false_iff]
  refine ⟨trivial, by omega, ?_⟩
  simp only [Bool.and_eq_true, decide_eq_true_eq]
  omega

/-- Witness for `multi_select_spec` at `n = 3`, `k = 2`. -/
theorem multi_select_spec_witness :
    (mkMultiLinkSelect 3).num_options = min 3 25
    ∧ (selectionAllowed (mkMultiLinkSelect 3) 2 = true ↔ 1 ≤ 2 ∧ 2 ≤ min 3 25) := by
  have h := multi_select_spec 3 2 (by omega)
  exact ⟨h.1, h.2.2⟩

/- ===========================================================================
   ConfirmMultiLinkView.confirm_button (main.py:882-919): the sequential
   batch-save loop over the selected indices.  A per-item persistence failure
   (`storage.add_pending_link` raising, or the index being out of range) is
   an input predicate `fails`; each iteration posts exactly one message —
   a progress message on success, an error report on failure — and failures
   do not stop the loop.
   =========================================================================== -/

/-- One channel message posted by the batch-save loop. -/
inductive BatchMsg
  | progress (count : Nat) (link : String)
  | failure
deriving DecidableEq

/-- State threaded through the batch-save loop: `saved_count`, the durable
pending store, the presser's `links_to_categorize` slot, and the channel
messages posted so far. -/
structure BatchState where
  saved_count : Nat
  durable : List PendingEntry
  categorize : Option String
  messages : List BatchMsg
deriving DecidableEq

/-- The `pending_entry` dict of main.py:889-895, built from the interaction. -/
def mkBatchEntry (userId chId origMsgId : Nat) (ts : String)
    (link : String) : PendingEntry :=
  { user_id := userId, link := link, channel_id := chId,
    original_message_id := origMsgId, timestamp := ts }

/-- Whether the loop body succeeds for index `i`: the persistence call does
not raise and the index is within `self.links`. -/
def batch_item_ok (links : List String) (fails : Nat → Bool) (i : Nat) : Bool :=
  ! (fails i || decide (links.length ≤ i))

/-- One iteration of the loop at main.py:886-913: on failure, report the
error to the channel and continue; on success, insert the durable record,
bump `saved_count`, overwrite the to-categorize slot and post the progress
message. -/
def confirm_batch_step (links : List String) (userId chId origMsgId : Nat)
    (ts : String) (fails : Nat → Bool) (s : BatchState) (idx : Nat) : BatchState :=
  if batch_item_ok links fails idx then
    let link := links.getD idx ""
    { saved_count := s.saved_count + 1
      durable := s.durable ++ [mkBatchEntry userId chId origMsgId ts link]
      categorize := some link
      messages := s.messages ++ [BatchMsg.progress (s.saved_count + 1) link] }
  else { s with messages := s.messages ++ [BatchMsg.failure] }

/-- The whole loop `for idx in self.selected_indices` (main.py:886). -/
def confirm_batch_save (links : List String) (userId chId origMsgId : Nat)
    (ts : String) (fails : Nat → Bool) (selected : List Nat)
    (s : BatchState) : BatchState :=
  selected.foldl (confirm_batch_step links userId chId origMsgId ts fails) s

theorem batch_step_effect (links : List String) (userId chId origMsgId : Nat)
    (ts : String) (fails : Nat → Bool) (s : BatchState) (i : Nat) :
    (confirm_batch_step links userId chId origMsgId ts fails s i).messages.length
        = s.messages.length + 1
    ∧ (confirm_batch_step links userId chId origMsgId ts fails s i).saved_count
        = s.saved_count + (if batch_item_ok links fails i then 1 else 0)
    ∧ (confirm_batch_step links userId chId origMsgId ts fails s i).durable.length
        = s.durable.length + (if batch_item_ok links fails i then 1 else 0) := by
  unfold confirm_batch_step
  by_cases hok : batch_item_ok links fails i = true
  · rw [if_pos hok]
    exact ⟨by simp, by simp [hok], by simp [hok]⟩
  · rw [if_neg hok]
    exact ⟨by simp, by simp [hok], by simp [hok]⟩

theorem batch_save_messages (links : List String) (userId chId origMsgId : Nat)
    (ts : String) (fails : Nat → Bool) (selected : List Nat) (s : BatchState) :
    (confirm_batch_save links userId chId origMsgId ts fails selected s).messages.length
        = s.messages.length + selected.length := by
  induction selected generalizing s with
  | nil => simp [confirm_batch_save]
  | cons i rest ih =>
      rw [confirm_batch_save, List.foldl_cons]
      have hstep := ih (confirm_batch_step links userId chId origMsgId ts fails s i)
      rw [confirm_batch_save] at hstep
      rw [hstep, (batch_step_effect links userId chId origMsgId ts fails s i).1]
      simp only [List.length_cons]
      omega

theorem batch_save_count (links : List String) (userId chId origMsgId : Nat)
    (ts : String) (fails : Nat → Bool) (selected : List Nat) (s : BatchState) :
    (confirm_batch_save links userId chId origMsgId ts fails selected s).saved_count
        = s.saved_count + selected.countP (batch_item_ok links fails) := by
  induction selected generalizing s with
  | nil => simp [confirm_batch_save]
  | cons i rest ih =>
      rw [confirm_batch_save, List.foldl_cons]
      have hstep := ih (confirm_batch_step links userId chId origMsgId ts fails s i)
      rw [confirm_batch_save] at hstep
      rw [hstep, (batch_step_effect links userId chId origMsgId ts fails s i).2.1,
        List.countP_cons]
      by_cases hok : batch_item_ok links fails i = true
      · rw [hok]
        simp only [if_pos]
        omega
      · simp only [Bool.not_eq_true] at hok
        rw [hok]
        simp only [Bool.false_eq_true, if_neg, not_false_iff]
        omega

theorem batch_save_durable (links : List String) (userId chId origMsgId : Nat)
    (ts : String) (fails : Nat → Bool) (selected : List Nat) (s : BatchState) :
    (confirm_batch_save links userId chId origMsgId ts fails selected s).durable.length
        = s.durable.length + selected.countP (batch_item_ok links fails) := by
  induction selected generalizing s with
  | nil => simp [confirm_batch_save]
  | cons i rest ih =>
      rw [confirm_batch_save, List.foldl_cons]
      have hstep := ih (confirm_batch_step links userId chId origMsgId ts fails s i)
      rw [confirm_batch_save] at hstep
      rw [hstep, (batch_step_effect links userId chId origMsgId ts fails s i).2.2,
        List.countP_cons]
      by_cases hok : batch_item_ok links fails i = true
      · rw [hok]
        simp only [if_pos]
        omega
      · simp only [Bool.not_eq_true] at hok
        rw [hok]
        simp only [Bool.false_eq_true, if_neg, not_false_iff]
        omega

/-- C9: the batch-save loop is best-effort and sequential: every selected
index is processed and posts exactly one channel message, failures do not
abort the remaining items (running the loop on `selA ++ selB` equals running
it on `selA` and then on `selB` from the intermediate state), and the number
of saved records and of `saved_count` increments equals the number of
successful items. -/
theorem batch_save_spec (links : List String) (userId chId origMsgId : Nat)
    (ts : String) (fails : Nat → Bool) (selected selA selB : List Nat)
    (s : BatchState) :
    (confirm_batch_save links userId chId origMsgId ts fails selected s).messages.length
        = s.messages.length + selected.length
    ∧ (confirm_batch_save links userId chId origMsgId ts fails selected s).saved_count
        = s.saved_count + selected.countP (batch_item_ok links fails)
    ∧ (confirm_batch_save links userId chId origMsgId ts fails selected s).durable.length
        = s.durable.length + selected.countP (batch_item_ok links fails)
    ∧ confirm_batch_save links userId chId origMsgId ts fails (selA ++ selB) s
        = confirm_batch_save links userId chId origMsgId ts fails selB
            (confirm_batch_save links userId chId origMsgId ts fails selA s) :=
  ⟨batch_save_messages links userId chId origMsgId ts fails selected s,
   batch_save_count links userId chId origMsgId ts fails selected s,
   batch_save_durable links userId chId origMsgId ts fails selected s,
   List.foldl_append _ _ _ _⟩

/- ===========================================================================
   The URL phase of `on_message` (main.py:1398-1512) as the program actually
   runs.  Only state components touched by this phase are modelled: the
   burst window, the capacity state (guild counter + durable store), the
   author's batch bucket and the number of per-link prompts created.
   Candidates are the links that survived `is_media_url` / `is_valid_url`
   filtering (main.py:1399), each carried as the pending entry it would
   insert.  The multi-link branch (main.py:1400-1437) never reads
   `guild_config` and runs to completion; the per-link loop dies with
   NameError at main.py:1446 on its first iteration, right after the event
   bookkeeping of main.py:1442-1443.
   =========================================================================== -/

/-- State touched by the URL phase. -/
structure PhaseState where
  events : ChannelEvents
  cap : GuildCapState
  batches : List PendingEntry
  prompts : Nat
deriving DecidableEq

/-- One iteration of the overflow loop (main.py:1408-1427): acquire capacity
(increment-then-check) and, if accepted, insert the durable record and queue
the link to the author's batch bucket.  The burst window is not touched. -/
def overflowStep (cap : Int) (s : PhaseState) (e : PendingEntry) : PhaseState :=
  let r := acquirePending cap e s.cap
  if r.1 then { s with cap := r.2, batches := s.batches ++ [e] }
  else { s with cap := r.2 }

/-- The branch structure of main.py:1398-1512 as the program actually runs:
more than one surviving candidate takes the multi-link path (the overflow
loop beyond 25 candidates, then the disclosure prompt) and returns normally;
with zero candidates the per-link loop body never runs; with exactly one
candidate, the loop records the link's event and prunes the window
(main.py:1442-1443) and then dies with NameError on the unbound
`guild_config` at main.py:1446 — before any routing decision, capacity
acquire or prompt creation.  The result is the final phase state paired with
the exception, if any. -/
def linkPhase (cap : Int) (window : ℚ) (chId : Nat) (now : Time)
    (candidates : List PendingEntry) (s : PhaseState) :
    PhaseState × Option String :=
  if 1 < candidates.length then
    if 25 < candidates.length then
      ((candidates.drop 25).foldl (overflowStep cap) s, none)
    else (s, none)
  else
    match candidates with
    | [] => (s, none)
    | _ :: _ =>
        ({ s with events :=
            cleanup_old_events (add_event s.events chId now) chId window now },
         some guild_config_error)

/-- A concrete empty phase state. -/
def phase0 : PhaseState :=
  { events := [], cap := initCapState, batches := [], prompts := 0 }

theorem overflowStep_events (cap : Int) (s : PhaseState) (e : PendingEntry) :
    (overflowStep cap s e).events = s.events := by
  simp only [overflowStep]
  split <;> rfl

theorem foldl_overflowStep_events (cap : Int) (l : List PendingEntry)
    (s : PhaseState) : (l.foldl (overflowStep cap) s).events = s.events := by
  induction l generalizing s with
  | nil => rfl
  | cons e rest ih =>
      rw [List.foldl_cons, ih]
      exact overflowStep_events cap s e

/-- C8 counterexample: a message with two surviving candidate links takes the
multi-link branch, which records no burst events at all — starting from the
empty detector, the burst window is still empty afterwards, although the
claim requires one event per candidate. -/
theorem burst_record_cex :
    (linkPhase 200 3 0 0 [sampleEntry, sampleEntry] phase0).1.events = []
    ∧ (linkPhase 200 3 0 0 [sampleEntry, sampleEntry] phase0).1.events
        ≠ [(0, [0, 0])] := by
  have h : (linkPhase 200 3 0 0 [sampleEntry, sampleEntry] phase0).1.events
      = [] := rfl
  refine ⟨h, ?_⟩
  rw [h]
  simp

/-- C8 amended: no link on the multi-link path ever contributes a burst
event — that workflow leaves the burst window untouched and raises nothing.
Only the single-candidate path records an event: the window afterwards is
the pruned window with the new event appended, but the iteration then aborts
with NameError on the unbound `guild_config` before the recorded event is
ever used for a routing decision, leaving the capacity state, the batch
bucket and the prompt count untouched. -/
theorem burst_record_spec (cap : Int) (window : ℚ) (chId : Nat) (now : Time)
    (e : PendingEntry) (candidates : List PendingEntry) (s : PhaseState) :
    (1 < candidates.length →
        (linkPhase cap window chId now candidates s).1.events = s.events
        ∧ (linkPhase cap window chId now candidates s).2 = none)
    ∧ (linkPhase cap window chId now [e] s).1.events
        = cleanup_old_events (add_event s.events chId now) chId window now
    ∧ (linkPhase cap window chId now [e] s).2 = some guild_config_error
    ∧ (linkPhase cap window chId now [e] s).1.cap = s.cap
    ∧ (linkPhase cap window chId now [e] s).1.batches = s.batches
    ∧ (linkPhase cap window chId now [e] s).1.prompts = s.prompts := by
  constructor
  · intro h
    unfold linkPhase
    rw [if_pos h]
    by_cases h25 : 25 < candidates.length
    · rw [if_pos h25]
      exact ⟨foldl_overflowStep_events cap _ s, rfl⟩
    · rw [if_neg h25]
      exact ⟨rfl, rfl⟩
  · have h1 : ¬ (1 < ([e] : List PendingEntry).length) := by simp
    unfold linkPhase
    rw [if_neg h1]
    exact ⟨rfl, rfl, rfl, rfl, rfl⟩

/-- Witness for `burst_record_spec` at concrete inputs. -/
theorem burst_record_spec_witness :
    (linkPhase 200 3 0 0 [sampleEntry, sampleEntry] phase0).1.events
        = phase0.events
    ∧ (linkPhase 200 3 0 0 [sampleEntry] phase0).1.events
        = cleanup_old_events (add_event phase0.events 0 0) 0 3 0
    ∧ (linkPhase 200 3 0 0 [sampleEntry] phase0).2 = some guild_config_error := by
  have h := burst_record_spec 200 3 0 0 sampleEntry
    [sampleEntry, sampleEntry] phase0
  exact ⟨(h.1 (by simp)).1, h.2.1, h.2.2.1⟩

/- ===========================================================================
   JSONFileStorage (storage.py:128-178) and the module-level wrappers
   (storage.py:249-273).  The pending-links JSON file is a list of entries.
   =========================================================================== -/

/-- `JSONFileStorage.add_pending_link` (storage.py:149-154): append the entry
and return None — the file backend has no record ids. -/
def json_add_pending_link (e : PendingEntry) (st : List PendingEntry) :
    Option String × List PendingEntry :=
  (none, st ++ [e])

/-- `JSONFileStorage.update_pending_with_bot_msg_id` (storage.py:156-162):
the method body is `pass` — a no-op. -/
def json_update_pending_with_bot_msg_id (_pid : String) (_botMsgId : Nat)
    (st : List PendingEntry) : List PendingEntry :=
  st

/-- `JSONFileStorage.delete_pending_link_by_id` (storage.py:175-178): the
method body is `pass` — a no-op. -/
def json_delete_pending_link_by_id (_pid : String) (st : List PendingEntry) :
    List PendingEntry :=
  st

/-- Python truthiness of the optional id string (`if pending_id:` /
`if _id_str:`): None and the empty string are falsy. -/
def truthyId : Option String → Bool
  | none => false
  | some s => ! (s == "")

/-- Module-level `update_pending_with_bot_msg_id` (storage.py:254-257) over
the JSON backend: call the backend only for a truthy id. -/
def update_pending_with_bot_msg_id (pid : Option String) (botMsgId : Nat)
    (st : List PendingEntry) : List PendingEntry :=
  if truthyId pid then
    json_update_pending_with_bot_msg_id (pid.getD "") botMsgId st
  else st

/-- Module-level `delete_pending_link_by_id` (storage.py:270-273) over the
JSON backend: call the backend only for a truthy id. -/
def delete_pending_link_by_id (pid : Option String) (st : List PendingEntry) :
    List PendingEntry :=
  if truthyId pid then json_delete_pending_link_by_id (pid.getD "") st
  else st

/-- `JSONFileStorage.delete_pending_link_by_bot_msg_id` (storage.py:169-173):
keep the entries whose `bot_msg_id` differs from the given one (entries
without the key compare as None and are kept). -/
def json_delete_pending_link_by_bot_msg_id (m : Nat) (st : List PendingEntry) :
    List PendingEntry :=
  st.filter (fun e => ! (e.bot_msg_id == some m))

/-- C10: under the JSON backend, `add_pending_link` appends the record and
returns None as its identifier; `update_pending_with_bot_msg_id` and
`delete_pending_link_by_id` leave the store unchanged for that identifier —
indeed for every identifier, truthy or not, since the backend methods are
no-ops — and deletion keyed by the bot message id is the operation that
removes records: exactly the entries carrying that bot message id disappear. -/
theorem json_storage_spec (e x : PendingEntry) (st st2 : List PendingEntry)
    (m : Nat) (pid : Option String) :
    (json_add_pending_link e st).1 = none
    ∧ (json_add_pending_link e st).2 = st ++ [e]
    ∧ update_pending_with_bot_msg_id (json_add_pending_link e st).1 m st2 = st2
    ∧ delete_pending_link_by_id (json_add_pending_link e st).1 st2 = st2
    ∧ update_pending_with_bot_msg_id pid m st2 = st2
    ∧ delete_pending_link_by_id pid st2 = st2
    ∧ (x ∈ json_delete_pending_link_by_bot_msg_id m st
        ↔ x ∈ st ∧ x.bot_msg_id ≠ some m) := by
  refine ⟨rfl, rfl, rfl, rfl, ?_, ?_, ?_⟩
  · unfold update_pending_with_bot_msg_id json_update_pending_with_bot_msg_id
    split <;> rfl
  · unfold delete_pending_link_by_id json_delete_pending_link_by_id
    split <;> rfl
  · unfold json_delete_pending_link_by_bot_msg_id
    rw [List.mem_filter]
    simp
